import Mathlib

/-!
Shallow embedding of the drift-detection and repair module
(`src/scripts/drift-detection.ts`) of the Iceberg data-lake repository.

The module's external collaborators (the AWS CLI invocations via `execSync`,
the `cdk deploy` redeploy, and the interactive readline channel) are modelled
as an explicit environment `Env` whose fields give the outcome of each
external call; `Except String` models a call that can throw.  The polling
loop of `waitForDriftDetection` is embedded as fuel recursion on the
remaining attempt budget, instrumented to additionally return the number of
status polls performed and the total milliseconds slept, so that bounded
polling and short-circuiting are provable facts about the definition.
-/

set_option autoImplicit false

/-- Stack-level drift status union of the TypeScript `DriftStatus` interface. -/
inductive StackDriftStatusKind where
  | IN_SYNC
  | DRIFTED
  | UNKNOWN
  | NOT_CHECKED
deriving DecidableEq, Repr

/-- Detection-lifecycle status union of the TypeScript `DriftStatus` interface. -/
inductive DetectionStatusKind where
  | DETECTION_IN_PROGRESS
  | DETECTION_COMPLETE
  | DETECTION_FAILED
deriving DecidableEq, Repr

/-- The `DriftStatus` record returned by `describe-stack-drift-detection-status`. -/
structure DriftStatus where
  StackDriftStatus : StackDriftStatusKind
  DetectionStatus : DetectionStatusKind
  DriftedStackResourceCount : Option Nat
  Timestamp : String
  StatusReason : Option String
deriving DecidableEq, Repr

/-- Per-resource drift status union of the TypeScript `ResourceDrift` interface. -/
inductive ResourceDriftStatusKind where
  | IN_SYNC
  | MODIFIED
  | DELETED
  | NOT_CHECKED
deriving DecidableEq, Repr

/-- One entry of `PropertyDifferences` on a `ResourceDrift`. -/
structure PropertyDifference where
  PropertyPath : String
  DifferenceType : String
  ActualValue : Option String
  ExpectedValue : Option String
deriving DecidableEq, Repr

/-- The `ResourceDrift` record returned by `describe-stack-resource-drifts`. -/
structure ResourceDrift where
  LogicalResourceId : String
  PhysicalResourceId : String
  ResourceType : String
  StackResourceDriftStatus : ResourceDriftStatusKind
  PropertyDifferences : List PropertyDifference
  Timestamp : String
deriving DecidableEq, Repr

/-- The `DriftAnalysis` record produced by `DriftDetector.analyzeDrifts`. -/
structure DriftAnalysis where
  total : Nat
  drifted : Nat
  deleted : List ResourceDrift
  modified : List ResourceDrift
  inSync : Nat
deriving DecidableEq, Repr

/-- `DriftDetector.analyzeDrifts`: pure classification of a batch of
resource drifts, translated field by field from the TypeScript object
literal (filters over the input list, counted or kept as lists). -/
def analyzeDrifts (drifts : List ResourceDrift) : DriftAnalysis :=
  { total := drifts.length
    drifted := (drifts.filter (fun d =>
        d.StackResourceDriftStatus == ResourceDriftStatusKind.MODIFIED ||
        d.StackResourceDriftStatus == ResourceDriftStatusKind.DELETED)).length
    deleted := drifts.filter (fun d =>
        d.StackResourceDriftStatus == ResourceDriftStatusKind.DELETED)
    modified := drifts.filter (fun d =>
        d.StackResourceDriftStatus == ResourceDriftStatusKind.MODIFIED)
    inSync := (drifts.filter (fun d =>
        d.StackResourceDriftStatus == ResourceDriftStatusKind.IN_SYNC)).length }

/-- Errors thrown by the drift detector, one constructor per `throw` site:
`queryError` for transport failures of the read-only describe calls,
`startError` for a failing `detect-stack-drift` call, `detectionFailed` for
the explicit throw on `DETECTION_FAILED` (carrying the reported reason or the
literal fallback text), `timeout` for the throw after the poll budget is
exhausted, `transport` for a failing status query inside the poll loop, and
`repairError` for a failing `cdk deploy` invocation. -/
inductive DriftError where
  | queryError (msg : String)
  | startError (msg : String)
  | detectionFailed (reason : String)
  | timeout
  | transport (msg : String)
  | repairError (msg : String)
deriving DecidableEq, Repr

/-- `maxAttempts` of `waitForDriftDetection`: at most 5 minutes = 30 polls. -/
def maxAttempts : Nat := 30

/-- The fixed sleep between polls: `setTimeout(resolve, 10000)`. -/
def pollIntervalMs : Nat := 10000

/-- The `while (attempts < maxAttempts)` loop of
`DriftDetector.waitForDriftDetection`, as fuel recursion on the remaining
attempt budget.  `poll n` is the outcome of the `n`-th
`describe-stack-drift-detection-status` call (`Except.error` when the call
throws).  Besides the result it returns the number of polls performed and the
total milliseconds slept, so the loop's resource use is observable. -/
def waitForDriftDetectionAux (poll : Nat → Except String DriftStatus) :
    Nat → Nat → Except DriftError DriftStatus × Nat × Nat
  | _, 0 => (Except.error DriftError.timeout, 0, 0)
  | attempts, remaining + 1 =>
    match poll attempts with
    | Except.error msg => (Except.error (DriftError.transport msg), 1, 0)
    | Except.ok status =>
      match status.DetectionStatus with
      | DetectionStatusKind.DETECTION_COMPLETE => (Except.ok status, 1, 0)
      | DetectionStatusKind.DETECTION_FAILED =>
          (Except.error
            (DriftError.detectionFailed (status.StatusReason.getD "不明な理由")), 1, 0)
      | DetectionStatusKind.DETECTION_IN_PROGRESS =>
          let rest := waitForDriftDetectionAux poll (attempts + 1) remaining
          (rest.1, rest.2.1 + 1, rest.2.2 + pollIntervalMs)

/-- `DriftDetector.waitForDriftDetection`: run the poll loop with the full
attempt budget, starting at attempt `0`. -/
def waitForDriftDetection (poll : Nat → Except String DriftStatus) :
    Except DriftError DriftStatus × Nat × Nat :=
  waitForDriftDetectionAux poll 0 maxAttempts

/-- Outcomes of the detector's external collaborators for one reconciliation
run: each field is the result of the corresponding `execSync` / readline
interaction (`Except.error msg` models the call throwing with that message).
`poll` / `repairPoll` give the status-query outcome per attempt for the
initial and the post-repair detection; `answer` is the user's reply to the
repair prompt. -/
structure Env where
  describeStacks : Except String Nat
  startDetection : Except String String
  poll : Nat → Except String DriftStatus
  driftDetails : Except String (List ResourceDrift)
  answer : String
  redeploy : Except String Unit
  repairStart : Except String String
  repairPoll : Nat → Except String DriftStatus

/-- Character-list test: does `s` start with `pat`? -/
def startsWithChars : List Char → List Char → Bool
  | [], _ => true
  | _ :: _, [] => false
  | p :: ps, c :: cs => p == c && startsWithChars ps cs

/-- Character-list test: does `pat` occur contiguously inside `s`? -/
def hasSubstrChars (pat : List Char) : List Char → Bool
  | [] => startsWithChars pat []
  | c :: cs => startsWithChars pat (c :: cs) || hasSubstrChars pat cs

/-- Substring test used to model `error.message.includes('does not exist')`. -/
def hasSubstr (s pat : String) : Bool :=
  hasSubstrChars pat.data s.data

/-- Lowercasing as in `answer.toLowerCase()`, applied per character over the
string's character list. -/
def toLowerString (s : String) : String :=
  String.mk (s.data.map Char.toLower)

/-- `DriftDetector.checkStackExists`: `describe-stacks` succeeded with a
stack list (modelled by its length) ⇒ existence is `length > 0`; a thrown
error whose message includes `does not exist` is converted to `false`; any
other error propagates. -/
def checkStackExists (env : Env) : Except DriftError Bool :=
  match env.describeStacks with
  | Except.ok n => Except.ok (decide (0 < n))
  | Except.error msg =>
      if hasSubstr msg "does not exist" then Except.ok false
      else Except.error (DriftError.queryError msg)

/-- The detector's single piece of mutable state: the lazily created
readline interface (`rl?: readline.Interface`), present or not. -/
structure DetectorState where
  rl : Option Unit
deriving DecidableEq, Repr

/-- `DriftDetector.createReadlineInterface`: create the interface if absent. -/
def createReadlineInterface (s : DetectorState) : DetectorState :=
  match s.rl with
  | some _ => s
  | none => { rl := some () }

/-- `DriftDetector.cleanup`: close the readline interface if present and
clear the field; a no-op otherwise.  The second component counts how many
underlying `rl.close()` calls this invocation performed. -/
def cleanup (s : DetectorState) : DetectorState × Nat :=
  match s.rl with
  | some _ => ({ rl := none }, 1)
  | none => (s, 0)

/-- External calls observable in a run of the orchestration flows, used to
record which collaborators a flow actually invoked. -/
inductive Call where
  | checkStack
  | startDetection
  | pollStatus
  | getDetails
  | promptUser
deriving DecidableEq, Repr

/-- Result object of `DriftDetector.detectAndReport`.  The short-circuit
return `{needsRepair: false, stackExists: false}` carries no status, analysis
or drift list, hence the `Option` fields. -/
structure ReportResult where
  needsRepair : Bool
  stackExists : Bool
  driftStatus : Option DriftStatus
  analysis : Option DriftAnalysis
  drifts : Option (List ResourceDrift)
deriving DecidableEq, Repr

/-- `DriftDetector.detectAndReport`: check existence, short-circuit when the
stack is absent, otherwise start detection, wait for completion, fetch
details, analyze, display the report (pure side effect, not modelled) and ask
for repair (`askForRepair` prompts only when `analysis.drifted > 0`; the
answer counts as yes when it lowercases to `y` or `yes`).  The second
component is the trace of external calls performed, with one `pollStatus`
entry per poll of the wait loop. -/
def detectAndReport (env : Env) : Except DriftError ReportResult × List Call :=
  match checkStackExists env with
  | Except.error e => (Except.error e, [Call.checkStack])
  | Except.ok false =>
      (Except.ok { needsRepair := false, stackExists := false,
                   driftStatus := none, analysis := none, drifts := none },
       [Call.checkStack])
  | Except.ok true =>
      match env.startDetection with
      | Except.error msg =>
          (Except.error (DriftError.startError msg),
           [Call.checkStack, Call.startDetection])
      | Except.ok _ =>
          let w := waitForDriftDetection env.poll
          let trace := [Call.checkStack, Call.startDetection]
            ++ List.replicate w.2.1 Call.pollStatus
          match w.1 with
          | Except.error e => (Except.error e, trace)
          | Except.ok driftStatus =>
              match env.driftDetails with
              | Except.error msg =>
                  (Except.error (DriftError.queryError msg),
                   trace ++ [Call.getDetails])
              | Except.ok drifts =>
                  let analysis := analyzeDrifts drifts
                  if analysis.drifted == 0 then
                    (Except.ok { needsRepair := false, stackExists := true,
                                 driftStatus := some driftStatus,
                                 analysis := some analysis,
                                 drifts := some drifts },
                     trace ++ [Call.getDetails])
                  else
                    (Except.ok { needsRepair :=
                                   toLowerString env.answer == "y" ||
                                   toLowerString env.answer == "yes",
                                 stackExists := true,
                                 driftStatus := some driftStatus,
                                 analysis := some analysis,
                                 drifts := some drifts },
                     trace ++ [Call.getDetails, Call.promptUser])

/-- The `try` block of `DriftDetector.repairDrift`: redeploy via
`cdk deploy`, then re-run detection (`startDriftDetection` +
`waitForDriftDetection` against `repairPoll`) and report whether the
post-repair stack drift status is `IN_SYNC`.  Any step may throw. -/
def repairDriftAttempt (env : Env) : Except DriftError Bool :=
  match env.redeploy with
  | Except.error msg => Except.error (DriftError.repairError msg)
  | Except.ok _ =>
      match env.repairStart with
      | Except.error msg => Except.error (DriftError.startError msg)
      | Except.ok _ =>
          match (waitForDriftDetection env.repairPoll).1 with
          | Except.error e => Except.error e
          | Except.ok st =>
              Except.ok (st.StackDriftStatus == StackDriftStatusKind.IN_SYNC)

/-- `DriftDetector.repairDrift`: the whole attempt sits inside one
`try { ... } catch { return false }`, so every error of the attempt is
swallowed into the result `false`. -/
def repairDrift (env : Env) : Except DriftError Bool :=
  match repairDriftAttempt env with
  | Except.ok b => Except.ok b
  | Except.error _ => Except.ok false

/-- Result object of `DriftDetector.detectAndRepair`: the spread of the
`detectAndReport` result plus the repair flags. -/
structure FullResult where
  needsRepair : Bool
  stackExists : Bool
  driftStatus : Option DriftStatus
  analysis : Option DriftAnalysis
  drifts : Option (List ResourceDrift)
  repairAttempted : Bool
  repairSuccess : Bool
deriving DecidableEq, Repr

/-- `DriftDetector.detectAndRepair`: run `detectAndReport`; when it asks for
repair, run `repairDrift` and record its boolean outcome, otherwise mark the
repair as not attempted. -/
def detectAndRepair (env : Env) : Except DriftError FullResult :=
  match (detectAndReport env).1 with
  | Except.error e => Except.error e
  | Except.ok r =>
      if r.needsRepair then
        match repairDrift env with
        | Except.error e => Except.error e
        | Except.ok b =>
            Except.ok { needsRepair := r.needsRepair,
                        stackExists := r.stackExists,
                        driftStatus := r.driftStatus,
                        analysis := r.analysis, drifts := r.drifts,
                        repairAttempted := true, repairSuccess := b }
      else
        Except.ok { needsRepair := r.needsRepair,
                    stackExists := r.stackExists,
                    driftStatus := r.driftStatus,
                    analysis := r.analysis, drifts := r.drifts,
                    repairAttempted := false, repairSuccess := false }

/-- The `require.main` driver's exit code:
`process.exit(result.stackExists && (!result.needsRepair || result.repairSuccess) ? 0 : 1)`
on resolution, `process.exit(1)` in the `.catch` handler. -/
def exitCode (r : Except DriftError FullResult) : Nat :=
  match r with
  | Except.error _ => 1
  | Except.ok res =>
      if res.stackExists && (!res.needsRepair || res.repairSuccess) then 0 else 1

/-- A `ResourceDrift` whose status is `NOT_CHECKED`. -/
def notCheckedDrift : ResourceDrift :=
  { LogicalResourceId := "BucketX", PhysicalResourceId := "bucket-x",
    ResourceType := "AWS::S3::Bucket",
    StackResourceDriftStatus := ResourceDriftStatusKind.NOT_CHECKED,
    PropertyDifferences := [], Timestamp := "t0" }

/-- A `ResourceDrift` whose status is `IN_SYNC`. -/
def inSyncDrift : ResourceDrift :=
  { LogicalResourceId := "Database1", PhysicalResourceId := "contract-lakehouse",
    ResourceType := "AWS::Glue::Database",
    StackResourceDriftStatus := ResourceDriftStatusKind.IN_SYNC,
    PropertyDifferences := [], Timestamp := "t0" }

/-- A `ResourceDrift` whose status is `MODIFIED`, with one property difference. -/
def modifiedDrift : ResourceDrift :=
  { LogicalResourceId := "Workgroup1", PhysicalResourceId := "iceberg-workgroup",
    ResourceType := "AWS::Athena::WorkGroup",
    StackResourceDriftStatus := ResourceDriftStatusKind.MODIFIED,
    PropertyDifferences :=
      [{ PropertyPath := "/WorkGroupConfiguration/EngineVersion",
         DifferenceType := "NOT_EQUAL",
         ActualValue := some "Athena engine version 2",
         ExpectedValue := some "Athena engine version 3" }],
    Timestamp := "t0" }

/-- A status snapshot reporting a detection still in progress. -/
def inProgressStatus : DriftStatus :=
  { StackDriftStatus := StackDriftStatusKind.NOT_CHECKED,
    DetectionStatus := DetectionStatusKind.DETECTION_IN_PROGRESS,
    DriftedStackResourceCount := none, Timestamp := "t0", StatusReason := none }

/-- A completed detection reporting the stack in sync. -/
def inSyncCompleteStatus : DriftStatus :=
  { StackDriftStatus := StackDriftStatusKind.IN_SYNC,
    DetectionStatus := DetectionStatusKind.DETECTION_COMPLETE,
    DriftedStackResourceCount := some 0, Timestamp := "t1", StatusReason := none }

/-- A completed detection reporting the stack drifted. -/
def driftedCompleteStatus : DriftStatus :=
  { StackDriftStatus := StackDriftStatusKind.DRIFTED,
    DetectionStatus := DetectionStatusKind.DETECTION_COMPLETE,
    DriftedStackResourceCount := some 1, Timestamp := "t1", StatusReason := none }

/-- A detection reported as failed, with a reason. -/
def failedStatus : DriftStatus :=
  { StackDriftStatus := StackDriftStatusKind.UNKNOWN,
    DetectionStatus := DetectionStatusKind.DETECTION_FAILED,
    DriftedStackResourceCount := none, Timestamp := "t1",
    StatusReason := some "Access denied" }

/-- A status query that reports `DETECTION_IN_PROGRESS` on every attempt. -/
def alwaysInProgressPoll : Nat → Except String DriftStatus :=
  fun _ => Except.ok inProgressStatus

/-- A status query that reports `DETECTION_FAILED` on the first attempt. -/
def failedFirstPoll : Nat → Except String DriftStatus :=
  fun _ => Except.ok failedStatus

/-- A status query: in progress on attempts 0 and 1, then a transport error. -/
def transportErrAt2Poll : Nat → Except String DriftStatus :=
  fun n => if n < 2 then Except.ok inProgressStatus
           else Except.error "socket hang up"

/-- A baseline environment: stack exists, detection completes in sync at the
first poll, no drift, redeploy succeeds. -/
def baseEnv : Env :=
  { describeStacks := Except.ok 1
    startDetection := Except.ok "det-1"
    poll := fun _ => Except.ok inSyncCompleteStatus
    driftDetails := Except.ok [inSyncDrift]
    answer := ""
    redeploy := Except.ok ()
    repairStart := Except.ok "det-2"
    repairPoll := fun _ => Except.ok inSyncCompleteStatus }

/-- Environment whose `describe-stacks` call reports zero stacks. -/
def envNoStack : Env :=
  { baseEnv with describeStacks := Except.ok 0 }

/-- Environment whose `cdk deploy` redeploy invocation throws. -/
def envRedeployFails : Env :=
  { baseEnv with redeploy := Except.error "cdk deploy failed" }

/-- Environment whose post-repair `detect-stack-drift` call throws. -/
def envRepairStartFails : Env :=
  { baseEnv with repairStart := Except.error "Rate exceeded" }

/-- Environment with one modified resource where the user declines repair. -/
def envDeclinedRepair : Env :=
  { baseEnv with
    poll := fun _ => Except.ok driftedCompleteStatus
    driftDetails := Except.ok [modifiedDrift]
    answer := "n"
    repairPoll := fun _ => Except.ok driftedCompleteStatus }

/-- The `FullResult` produced by `detectAndRepair` on `envDeclinedRepair`. -/
def declinedRepairResult : FullResult :=
  { needsRepair := false, stackExists := true,
    driftStatus := some driftedCompleteStatus,
    analysis := some (analyzeDrifts [modifiedDrift]),
    drifts := some [modifiedDrift],
    repairAttempted := false, repairSuccess := false }

theorem filter_mod_or_del_length (ds : List ResourceDrift) :
    (ds.filter (fun d =>
        d.StackResourceDriftStatus == ResourceDriftStatusKind.MODIFIED ||
        d.StackResourceDriftStatus == ResourceDriftStatusKind.DELETED)).length
      = (ds.filter (fun d =>
          d.StackResourceDriftStatus == ResourceDriftStatusKind.DELETED)).length
        + (ds.filter (fun d =>
          d.StackResourceDriftStatus == ResourceDriftStatusKind.MODIFIED)).length := by
  induction ds with
  | nil => rfl
  | cons d tl ih =>
      cases h : d.StackResourceDriftStatus <;>
        simp [List.filter_cons, h, ih] <;> omega

theorem length_status_partition (ds : List ResourceDrift) :
    ds.length
      = (ds.filter (fun d =>
          d.StackResourceDriftStatus == ResourceDriftStatusKind.IN_SYNC)).length
        + (ds.filter (fun d =>
          d.StackResourceDriftStatus == ResourceDriftStatusKind.MODIFIED ||
          d.StackResourceDriftStatus == ResourceDriftStatusKind.DELETED)).length
        + (ds.filter (fun d =>
          d.StackResourceDriftStatus == ResourceDriftStatusKind.NOT_CHECKED)).length := by
  induction ds with
  | nil => rfl
  | cons d tl ih =>
      cases h : d.StackResourceDriftStatus <;>
        simp [List.filter_cons, h] <;> omega

/-- C1: `analyzeDrifts` reports `total` as the input length, `drifted` as the
number of DELETED records plus the number of MODIFIED records, `inSync` as the
count of IN_SYNC records, and the `deleted` / `modified` lists are exactly the
DELETED / MODIFIED records in their original input order (as `List.filter`
keeps the order); NOT_CHECKED records are counted in `total` but in neither
`inSync` nor `drifted`, witnessed by
`total = inSync + drifted + |NOT_CHECKED records|`. -/
theorem analyzeDrifts_classification (ds : List ResourceDrift) :
    (analyzeDrifts ds).total = ds.length ∧
    (analyzeDrifts ds).drifted
        = (ds.filter (fun d =>
            d.StackResourceDriftStatus == ResourceDriftStatusKind.DELETED)).length
          + (ds.filter (fun d =>
            d.StackResourceDriftStatus == ResourceDriftStatusKind.MODIFIED)).length ∧
    (analyzeDrifts ds).inSync
        = (ds.filter (fun d =>
            d.StackResourceDriftStatus == ResourceDriftStatusKind.IN_SYNC)).length ∧
    (analyzeDrifts ds).deleted
        = ds.filter (fun d =>
            d.StackResourceDriftStatus == ResourceDriftStatusKind.DELETED) ∧
    (analyzeDrifts ds).modified
        = ds.filter (fun d =>
            d.StackResourceDriftStatus == ResourceDriftStatusKind.MODIFIED) ∧
    (analyzeDrifts ds).total
        = (analyzeDrifts ds).inSync + (analyzeDrifts ds).drifted
          + (ds.filter (fun d =>
            d.StackResourceDriftStatus == ResourceDriftStatusKind.NOT_CHECKED)).length := by
  refine ⟨rfl, filter_mod_or_del_length ds, rfl, rfl, rfl, ?_⟩
  have h := length_status_partition ds
  simp only [analyzeDrifts]
  omega

theorem filter_notChecked_nil (ds : List ResourceDrift)
    (h : ∀ d ∈ ds,
      d.StackResourceDriftStatus ≠ ResourceDriftStatusKind.NOT_CHECKED) :
    ds.filter (fun d =>
        d.StackResourceDriftStatus == ResourceDriftStatusKind.NOT_CHECKED)
      = [] := by
  induction ds with
  | nil => rfl
  | cons d tl ih =>
      have hd := h d (List.mem_cons_self d tl)
      rw [List.filter_cons]
      simp [hd, ih (fun x hx => h x (List.mem_cons_of_mem d hx))]

/-- C2 counterexample: on the single-element batch whose only record has
status `NOT_CHECKED`, `analyzeDrifts` reports `total = 1` but
`inSync + drifted = 0`, so the claimed invariant `total = inSync + drifted`
fails on this input. -/
theorem analyzeDrifts_total_invariant_fails :
    ¬ ((analyzeDrifts [notCheckedDrift]).total
        = (analyzeDrifts [notCheckedDrift]).inSync
          + (analyzeDrifts [notCheckedDrift]).drifted) := by
  decide

/-- C2 (amended): when the batch contains no `NOT_CHECKED` record,
`analyzeDrifts` satisfies `total = inSync + drifted`; and for every batch,
unconditionally, it satisfies `drifted = |deleted| + |modified|`. -/
theorem analyzeDrifts_invariants (ds : List ResourceDrift) :
    ((∀ d ∈ ds,
        d.StackResourceDriftStatus ≠ ResourceDriftStatusKind.NOT_CHECKED) →
      (analyzeDrifts ds).total
        = (analyzeDrifts ds).inSync + (analyzeDrifts ds).drifted) ∧
    (analyzeDrifts ds).drifted
        = (analyzeDrifts ds).deleted.length + (analyzeDrifts ds).modified.length := by
  constructor
  · intro h
    have h1 := length_status_partition ds
    have h2 := filter_notChecked_nil ds h
    simp only [analyzeDrifts]
    rw [h2] at h1
    simpa using h1
  · simpa [analyzeDrifts] using filter_mod_or_del_length ds

/-- Witness for C2 (amended) at the concrete batch `[inSyncDrift, modifiedDrift]`. -/
theorem analyzeDrifts_invariants_witness :
    (analyzeDrifts [inSyncDrift, modifiedDrift]).total
        = (analyzeDrifts [inSyncDrift, modifiedDrift]).inSync
          + (analyzeDrifts [inSyncDrift, modifiedDrift]).drifted ∧
    (analyzeDrifts [inSyncDrift, modifiedDrift]).drifted
        = (analyzeDrifts [inSyncDrift, modifiedDrift]).deleted.length
          + (analyzeDrifts [inSyncDrift, modifiedDrift]).modified.length :=
  ⟨(analyzeDrifts_invariants [inSyncDrift, modifiedDrift]).1 (by decide),
   (analyzeDrifts_invariants [inSyncDrift, modifiedDrift]).2⟩

theorem waitAux_all_inProgress (poll : Nat → Except String DriftStatus)
    (h : ∀ n, ∃ st, poll n = Except.ok st ∧
        st.DetectionStatus = DetectionStatusKind.DETECTION_IN_PROGRESS) :
    ∀ r a, waitForDriftDetectionAux poll a r
      = (Except.error DriftError.timeout, r, r * pollIntervalMs) := by
  intro r
  induction r with
  | zero => intro a; rfl
  | succ n ih =>
      intro a
      obtain ⟨st, hok, hip⟩ := h a
      simp [waitForDriftDetectionAux, hok, hip, ih (a + 1), Nat.succ_mul]

/-- C3: against a status query that reports `DETECTION_IN_PROGRESS` on every
attempt, `waitForDriftDetection` terminates with the timeout error after
exactly the 30-poll budget, having slept the full 10-second interval after
each unsuccessful poll (300000 ms in total); it never loops beyond the
budget. -/
theorem waitForDriftDetection_always_inProgress_times_out
    (poll : Nat → Except String DriftStatus)
    (h : ∀ n, ∃ st, poll n = Except.ok st ∧
        st.DetectionStatus = DetectionStatusKind.DETECTION_IN_PROGRESS) :
    waitForDriftDetection poll
      = (Except.error DriftError.timeout, 30, 30 * pollIntervalMs) :=
  waitAux_all_inProgress poll h maxAttempts 0

/-- Witness for C3: the constant in-progress status query. -/
theorem waitForDriftDetection_times_out_witness :
    waitForDriftDetection alwaysInProgressPoll
      = (Except.error DriftError.timeout, 30, 30 * pollIntervalMs) :=
  waitForDriftDetection_always_inProgress_times_out alwaysInProgressPoll
    (fun _ => ⟨inProgressStatus, rfl, rfl⟩)

theorem waitAux_failed_now (poll : Nat → Except String DriftStatus)
    (st : DriftStatus) (a r : Nat)
    (h0 : poll a = Except.ok st)
    (h1 : st.DetectionStatus = DetectionStatusKind.DETECTION_FAILED) :
    waitForDriftDetectionAux poll a (r + 1)
      = (Except.error
          (DriftError.detectionFailed (st.StatusReason.getD "不明な理由")), 1, 0) := by
  simp [waitForDriftDetectionAux, h0, h1]

/-- C6: against a status query that reports `DETECTION_FAILED` on the first
poll, `waitForDriftDetection` fails immediately with the detection-failed
error carrying the reported `StatusReason` (or the fixed fallback text when
none is reported), after exactly one poll and no sleep. -/
theorem waitForDriftDetection_failed_first_poll
    (poll : Nat → Except String DriftStatus) (st : DriftStatus)
    (h0 : poll 0 = Except.ok st)
    (h1 : st.DetectionStatus = DetectionStatusKind.DETECTION_FAILED) :
    waitForDriftDetection poll
      = (Except.error
          (DriftError.detectionFailed (st.StatusReason.getD "不明な理由")), 1, 0) :=
  waitAux_failed_now poll st 0 29 h0 h1

/-- Witness for C6: a query reporting failure with reason `Access denied`. -/
theorem waitForDriftDetection_failed_first_poll_witness :
    waitForDriftDetection failedFirstPoll
      = (Except.error (DriftError.detectionFailed "Access denied"), 1, 0) :=
  waitForDriftDetection_failed_first_poll failedFirstPoll failedStatus rfl rfl

/-- C8: the readline cleanup is idempotent: a second `cleanup` leaves the
detector state exactly as after the first and performs no further underlying
`close` operation (and, being a total function, raises no error). -/
theorem cleanup_idempotent (s : DetectorState) :
    (cleanup (cleanup s).1).1 = (cleanup s).1 ∧
    (cleanup (cleanup s).1).2 = 0 := by
  cases s with
  | mk rl => cases rl <;> simp [cleanup]

/-- C7: whenever `checkStackExists` comes back `false`, `detectAndReport`
returns `{stackExists: false, needsRepair: false}` (with no status, analysis
or drift list) and its call trace is the existence check alone: detection
start, status polling, detail fetch and the confirmation prompt are never
invoked. -/
theorem detectAndReport_short_circuit (env : Env)
    (h : checkStackExists env = Except.ok false) :
    detectAndReport env
      = (Except.ok { needsRepair := false, stackExists := false,
                     driftStatus := none, analysis := none, drifts := none },
         [Call.checkStack]) ∧
    Call.startDetection ∉ (detectAndReport env).2 ∧
    Call.pollStatus ∉ (detectAndReport env).2 ∧
    Call.getDetails ∉ (detectAndReport env).2 ∧
    Call.promptUser ∉ (detectAndReport env).2 := by
  have h1 : detectAndReport env
      = (Except.ok { needsRepair := false, stackExists := false,
                     driftStatus := none, analysis := none, drifts := none },
         [Call.checkStack]) := by
    simp [detectAndReport, h]
  refine ⟨h1, ?_, ?_, ?_, ?_⟩ <;> simp [h1]

/-- Witness for C7: the environment whose `describe-stacks` lists no stack. -/
theorem detectAndReport_short_circuit_witness :
    detectAndReport envNoStack
      = (Except.ok { needsRepair := false, stackExists := false,
                     driftStatus := none, analysis := none, drifts := none },
         [Call.checkStack]) ∧
    Call.startDetection ∉ (detectAndReport envNoStack).2 ∧
    Call.pollStatus ∉ (detectAndReport envNoStack).2 ∧
    Call.getDetails ∉ (detectAndReport envNoStack).2 ∧
    Call.promptUser ∉ (detectAndReport envNoStack).2 :=
  detectAndReport_short_circuit envNoStack rfl

/-- C9: `repairDrift` is total over its collaborators' behaviours: it always
returns a boolean, and whenever its attempt (redeploy + re-detection) throws
any error — redeploy failure, detection-start error, poll transport error,
detection reported failed, or poll-budget timeout — the error is caught and
the result is `false`; no error ever propagates to the caller. -/
theorem repairDrift_never_propagates (env : Env) :
    (∃ b, repairDrift env = Except.ok b) ∧
    (∀ e, repairDriftAttempt env = Except.error e →
      repairDrift env = Except.ok false) := by
  cases h : repairDriftAttempt env with
  | ok b =>
      refine ⟨⟨b, by simp [repairDrift, h]⟩, ?_⟩
      intro e he
      simp [h] at he
  | error e =>
      exact ⟨⟨false, by simp [repairDrift, h]⟩,
        fun _ _ => by simp [repairDrift, h]⟩

/-- Witness for C9: the environment whose post-repair detection start throws. -/
theorem repairDrift_never_propagates_witness :
    repairDrift envRepairStartFails = Except.ok false :=
  (repairDrift_never_propagates envRepairStartFails).2
    (DriftError.startError "Rate exceeded") rfl

/-- C4 counterexample: in the environment whose `cdk deploy` redeploy throws,
`repairDrift` does not propagate the error — it returns `Except.ok false` —
refuting the claim that a failing redeploy invocation propagates to the
caller. -/
theorem repairDrift_swallows_redeploy_failure :
    repairDrift envRedeployFails = Except.ok false ∧
    envRedeployFails.redeploy = Except.error "cdk deploy failed" :=
  ⟨rfl, rfl⟩

/-- C4 (amended): after a successful redeploy and a completed post-repair
detection, `repairDrift` returns `true` exactly when the post-repair drift
status is `IN_SYNC` and `false` (not an error) when drift persists; and when
the redeploy invocation itself fails it also returns `false` without raising
— the catch-all swallows every failure, so no error is ever propagated. -/
theorem repairDrift_amended (env : Env) :
    (∀ st : DriftStatus, env.redeploy = Except.ok () →
        (∃ i, env.repairStart = Except.ok i) →
        (waitForDriftDetection env.repairPoll).1 = Except.ok st →
        repairDrift env
          = Except.ok (st.StackDriftStatus == StackDriftStatusKind.IN_SYNC)) ∧
    (∀ msg, env.redeploy = Except.error msg →
        repairDrift env = Except.ok false) := by
  constructor
  · rintro st hre ⟨i, hst⟩ hw
    simp [repairDrift, repairDriftAttempt, hre, hst, hw]
  · intro msg hre
    simp [repairDrift, repairDriftAttempt, hre]

/-- Witness for C4 (amended): in the baseline environment the redeploy
succeeds and the post-repair detection reports `IN_SYNC`, so `repairDrift`
returns `true`. -/
theorem repairDrift_amended_witness :
    repairDrift baseEnv = Except.ok true :=
  (repairDrift_amended baseEnv).1 inSyncCompleteStatus rfl ⟨"det-2", rfl⟩ rfl

theorem waitAux_transport_after_prefix
    (poll : Nat → Except String DriftStatus) (msg : String) :
    ∀ k a r, k < r →
      (∀ i, i < k → ∃ st, poll (a + i) = Except.ok st ∧
          st.DetectionStatus = DetectionStatusKind.DETECTION_IN_PROGRESS) →
      poll (a + k) = Except.error msg →
      waitForDriftDetectionAux poll a r
        = (Except.error (DriftError.transport msg), k + 1, k * pollIntervalMs) := by
  intro k
  induction k with
  | zero =>
      intro a r hr hpre herr
      obtain ⟨r1, rfl⟩ : ∃ r1, r = r1 + 1 := ⟨r - 1, by omega⟩
      rw [Nat.add_zero] at herr
      simp [waitForDriftDetectionAux, herr]
  | succ n ih =>
      intro a r hr hpre herr
      obtain ⟨r1, rfl⟩ : ∃ r1, r = r1 + 1 := ⟨r - 1, by omega⟩
      obtain ⟨st, hok, hip⟩ := hpre 0 (Nat.succ_pos n)
      rw [Nat.add_zero] at hok
      have hpre1 : ∀ i, i < n → ∃ st, poll (a + 1 + i) = Except.ok st ∧
          st.DetectionStatus = DetectionStatusKind.DETECTION_IN_PROGRESS := by
        intro i hi
        have h2 := hpre (i + 1) (by omega)
        have h3 : a + (i + 1) = a + 1 + i := by omega
        rwa [h3] at h2
      have herr1 : poll (a + 1 + n) = Except.error msg := by
        have h3 : a + (n + 1) = a + 1 + n := by omega
        rwa [h3] at herr
      have hrec := ih (a + 1) r1 (by omega) hpre1 herr1
      simp [waitForDriftDetectionAux, hok, hip, hrec, Nat.succ_mul]

/-- C10: if the status query itself throws on attempt `k` (after `k`
in-progress polls within the 30-attempt budget), `waitForDriftDetection`
propagates that transport error immediately: the failing query is not
retried — exactly `k + 1` polls happen in total — and the remaining budget
is abandoned (only the `k` sleeps that preceded the failing attempt
occurred). -/
theorem waitForDriftDetection_transport_error_propagates
    (poll : Nat → Except String DriftStatus) (k : Nat) (msg : String)
    (hk : k < maxAttempts)
    (hpre : ∀ i, i < k → ∃ st, poll i = Except.ok st ∧
        st.DetectionStatus = DetectionStatusKind.DETECTION_IN_PROGRESS)
    (herr : poll k = Except.error msg) :
    waitForDriftDetection poll
      = (Except.error (DriftError.transport msg), k + 1, k * pollIntervalMs) := by
  have h := waitAux_transport_after_prefix poll msg k 0 maxAttempts hk
    (fun i hi => by simpa using hpre i hi)
    (by simpa using herr)
  simpa [waitForDriftDetection] using h

/-- Witness for C10: two in-progress polls, then a thrown status query. -/
theorem waitForDriftDetection_transport_witness :
    waitForDriftDetection transportErrAt2Poll
      = (Except.error (DriftError.transport "socket hang up"), 3,
         2 * pollIntervalMs) :=
  waitForDriftDetection_transport_error_propagates transportErrAt2Poll 2
    "socket hang up" (by decide)
    (fun i hi => ⟨inProgressStatus, by simp [transportErrAt2Poll, hi], rfl⟩)
    rfl

/-- C5 counterexample: in the environment where the stack exists, detection
completes with one modified resource (`drifted = 1`) and the user declines
the repair, the driver exits with code `0` even though drift is present and
was not repaired — refuting the claimed convention that such an outcome
exits with `1`. -/
theorem exitCode_zero_with_unrepaired_drift :
    exitCode (detectAndRepair envDeclinedRepair) = 0 ∧
    detectAndRepair envDeclinedRepair = Except.ok declinedRepairResult ∧
    (analyzeDrifts [modifiedDrift]).drifted = 1 ∧
    declinedRepairResult.repairAttempted = false ∧
    declinedRepairResult.repairSuccess = false :=
  ⟨rfl, rfl, rfl, rfl, rfl⟩

/-- C5 (amended): the driver exits with `0` exactly when the flow resolves
without a thrown error, the stack exists, and either repair was not
requested (`needsRepair = false`, which includes the case of drift present
but declined by the user) or the repair succeeded; every thrown error and
every other outcome exits with `1`. -/
theorem exitCode_spec (env : Env) :
    (∀ e, detectAndRepair env = Except.error e →
        exitCode (detectAndRepair env) = 1) ∧
    (∀ r, detectAndRepair env = Except.ok r →
        (exitCode (detectAndRepair env) = 0 ↔
          (r.stackExists = true ∧
            (r.needsRepair = false ∨ r.repairSuccess = true)))) := by
  constructor
  · intro e he
    simp [exitCode, he]
  · intro r hr
    simp only [exitCode, hr]
    cases r with
    | mk nr se ds an dr ra rs =>
        cases se <;> cases nr <;> cases rs <;> simp

/-- Witness for C5 (amended): the declined-repair environment resolves with
`stackExists = true` and `needsRepair = false`, so the exit code is `0`. -/
theorem exitCode_spec_witness :
    exitCode (detectAndRepair envDeclinedRepair) = 0 :=
  ((exitCode_spec envDeclinedRepair).2 declinedRepairResult rfl).2
    ⟨rfl, Or.inl rfl⟩
